import Mathlib

/-!
Verification of the `python-loki-logger` library (`python_loki_logger/Logger.py`
and `python_loki_logger/exceptions.py`) against its specification.

Python dictionaries are modelled as insertion-ordered association lists with
unique keys; `d[k] = v` and `d.update(other)` are embedded below with Python's
semantics (in-place overwrite keeps the key's position, new keys append at the
end).  The HTTP transport is modelled as an oracle (`NetOutcome`) passed to the
push operation, and the wall clock as an explicit nanosecond parameter.
Aliasing behaviour of the constructor and of the per-push merge is modelled
separately with an explicit heap of dictionary cells.
-/

namespace LokiSpec

/-- An insertion-ordered association list, modelling a Python `dict` whose keys
are strings.  Python guarantees that the key list of an actual `dict` has no
duplicates; `DictWF` below captures that invariant where a proof needs it. -/
abbrev AList (α : Type) := List (String × α)

/-- The keys of a dictionary, in order. -/
def dictKeys {α : Type} (d : AList α) : List String := d.map Prod.fst

/-- A real Python `dict` has pairwise-distinct keys. -/
abbrev DictWF {α : Type} (d : AList α) : Prop := (d.map Prod.fst).Nodup

/-- `d[k]`-style lookup: the value at the first occurrence of `k`. -/
def dictLookup {α : Type} (d : AList α) (k : String) : Option α :=
  match d with
  | [] => none
  | (k', v) :: rest => if k' = k then some v else dictLookup rest k

/-- Replace an entry with `(k, v)` when its key is `k`, used by `dictSet`. -/
def overwriteEntry {α : Type} (k : String) (v : α) (p : String × α) :
    String × α :=
  if p.1 = k then (k, v) else p

/-- Python `d[k] = v`: if `k` is present its value is overwritten in place
(keeping its position), otherwise `(k, v)` is appended at the end. -/
def dictSet {α : Type} (d : AList α) (k : String) (v : α) : AList α :=
  if d.any (fun p => p.1 = k) then
    d.map (overwriteEntry k v)
  else
    d ++ [(k, v)]

/-- Python `d.update(other)`: set each entry of `other`, in order. -/
def dictUpdate {α : Type} (d other : AList α) : AList α :=
  other.foldl (fun acc p => dictSet acc p.1 p.2) d

/-- Python `d.copy()`: in the pure value model a copy is the value itself;
the heap model below accounts for the aliasing consequences. -/
def dictCopy {α : Type} (d : AList α) : AList α := d

/-- A JSON value, covering everything `json.dumps` accepts from this library:
the message (`str` or `dict`) and arbitrary extras values. -/
inductive JVal : Type where
  | s : String → JVal
  | n : Int → JVal
  | b : Bool → JVal
  | null : JVal
  | arr : List JVal → JVal
  | obj : List (String × JVal) → JVal

/-- The error taxonomy of `exceptions.py`.  `pushError` stores the
constructor arguments of `LokiPushError` (message, status_code,
response_text); the other two store their message string. -/
inductive LokiError : Type where
  | configurationError : String → LokiError
  | connectionError : String → LokiError
  | pushError : String → Nat → String → LokiError

/-- The state stored by `LokiLogger.__init__` (lines 72-76 of Logger.py). -/
structure LokiLogger : Type where
  baseUrl : String
  pushUrl : String
  severity_label : String
  auth : Option (String × String)
  global_labels : AList String

/-- Python `s.endswith(t)`: `t`'s characters are a suffix of `s`'s. -/
def pyEndsWith (s t : String) : Bool := t.data.isSuffixOf s.data

/-- Python `s.startswith(t)`: `t`'s characters are a prefix of `s`'s. -/
def pyStartsWith (s t : String) : Bool := t.data.isPrefixOf s.data

/-- `LokiLogger.__init__` (lines 63-76): validation then field assignment.
`if not baseUrl` on a Python string tests for emptiness. -/
def mkLogger (baseUrl : String) (auth : Option (String × String))
    (severity_label : String) (pushUrl : String)
    (labels : Option (AList String)) : Except LokiError LokiLogger :=
  if baseUrl = "" then
    .error (.configurationError "baseUrl cannot be empty")
  else if pyEndsWith baseUrl "/" then
    .error (.configurationError "baseUrl must not end with /")
  else if ¬ pyStartsWith pushUrl "/" then
    .error (.configurationError "pushUrl must start with /")
  else
    .ok { baseUrl := baseUrl, pushUrl := pushUrl,
          severity_label := severity_label, auth := auth,
          global_labels := labels.getD [] }

/-- Lines 99-101: `payload = {"message": message}` then
`payload.update(extras)` when extras were given. -/
def buildPayload (message : JVal) (extras : Option (AList JVal)) : AList JVal :=
  let payload : AList JVal := [("message", message)]
  match extras with
  | none => payload
  | some e => dictUpdate payload e

/-- Lines 105-107: `merged_labels = self.global_labels.copy()` then
`merged_labels.update(labels)` when labels were given.  This is the stream
label map before the severity entry of line 108 is applied. -/
def mergedStreamLabels (global_labels : AList String)
    (labels : Option (AList String)) : AList String :=
  let merged := dictCopy global_labels
  match labels with
  | none => merged
  | some l => dictUpdate merged l

/-- One entry of the `"streams"` array of the Loki push body (lines 111-118).
The second component of each value pair holds the payload object that
`json.dumps` serialises into the wire string. -/
structure StreamObj : Type where
  stream : AList String
  values : List (String × JVal)

/-- The request body handed to `requests.post` (lines 111-118). -/
structure ReqBody : Type where
  streams : List StreamObj

/-- The observable HTTP POST: target URL, JSON body, basic-auth pair
(lines 121-126). -/
structure PushAttempt : Type where
  url : String
  body : ReqBody
  auth : Option (String × String)

/-- The transport oracle: either the endpoint answered with a status code and
body text, or `requests` raised a `RequestException` with some description. -/
inductive NetOutcome : Type where
  | response : Nat → String → NetOutcome
  | transportError : String → NetOutcome

/-- `LokiLogger._call_api` (lines 78-139), with the clock (`time.time_ns()`)
and the transport outcome made explicit.  Returns the POST that was attempted
together with the call's result.  A non-204 status raises `LokiPushError`
(which is not a `RequestException`, so the `except` clause does not catch it);
a transport failure raises `LokiConnectionError` carrying the URL and the
cause text. -/
def callApi (lg : LokiLogger) (level : String) (message : JVal)
    (extras : Option (AList JVal)) (labels : Option (AList String))
    (ts : Nat) (net : NetOutcome) : PushAttempt × Except LokiError Unit :=
  let payload := buildPayload message extras
  let merged_labels := dictSet (mergedStreamLabels lg.global_labels labels)
    lg.severity_label level
  let reqBody : ReqBody :=
    { streams := [{ stream := merged_labels,
                    values := [(toString ts, JVal.obj payload)] }] }
  let url := lg.baseUrl ++ lg.pushUrl
  let attempt : PushAttempt := { url := url, body := reqBody, auth := lg.auth }
  let result : Except LokiError Unit :=
    match net with
    | .response status text =>
        if status ≠ 204 then
          .error (.pushError "Failed to push log to Loki" status text)
        else
          .ok ()
    | .transportError desc =>
        .error (.connectionError
          ("Failed to connect to Loki at " ++ url ++ ": " ++ desc))
  (attempt, result)

/-- `LokiLogger.customLevel` (line 165): forwards everything to `_call_api`. -/
def customLevel (lg : LokiLogger) (level : String) (message : JVal)
    (extras : Option (AList JVal)) (labels : Option (AList String))
    (ts : Nat) (net : NetOutcome) : PushAttempt × Except LokiError Unit :=
  callApi lg level message extras labels ts net

/-- `LokiLogger.error` (line 187). -/
def errorLevel (lg : LokiLogger) (message : JVal)
    (extras : Option (AList JVal)) (labels : Option (AList String))
    (ts : Nat) (net : NetOutcome) : PushAttempt × Except LokiError Unit :=
  callApi lg "error" message extras labels ts net

/-- `LokiLogger.info` (line 209). -/
def infoLevel (lg : LokiLogger) (message : JVal)
    (extras : Option (AList JVal)) (labels : Option (AList String))
    (ts : Nat) (net : NetOutcome) : PushAttempt × Except LokiError Unit :=
  callApi lg "info" message extras labels ts net

/-- `LokiLogger.warn` (line 231). -/
def warnLevel (lg : LokiLogger) (message : JVal)
    (extras : Option (AList JVal)) (labels : Option (AList String))
    (ts : Nat) (net : NetOutcome) : PushAttempt × Except LokiError Unit :=
  callApi lg "warn" message extras labels ts net

/-- `LokiLogger.debug` (line 253). -/
def debugLevel (lg : LokiLogger) (message : JVal)
    (extras : Option (AList JVal)) (labels : Option (AList String))
    (ts : Nat) (net : NetOutcome) : PushAttempt × Except LokiError Unit :=
  callApi lg "debug" message extras labels ts net

/-! ### A heap of dictionary cells, for the aliasing behaviour

Python dictionaries are mutable objects passed by reference.  The pure
definitions above capture the values flowing through `_call_api`; the heap
model here captures which dictionary objects are shared, written to, or
freshly allocated.  Addresses are indices into a list of cells. -/

structure Heap : Type where
  cells : List (AList String)

/-- Read the dictionary object at address `a`. -/
def Heap.deref (h : Heap) (a : Nat) : AList String := h.cells.getD a []

/-- Mutate the dictionary object at address `a` in place. -/
def Heap.write (h : Heap) (a : Nat) (v : AList String) : Heap :=
  ⟨h.cells.set a v⟩

/-- Allocate a fresh dictionary object, returning the new heap and its
address. -/
def Heap.alloc (h : Heap) (v : AList String) : Heap × Nat :=
  (⟨h.cells ++ [v]⟩, h.cells.length)

/-- Line 76 of Logger.py, `self.global_labels = labels if labels is not None
else {}`, at the object level: when the caller passed a dict the logger
stores that same object (no copy is taken); only when no dict was passed is
a fresh empty dict allocated. -/
def initGlobalLabels (h : Heap) (labels : Option Nat) : Heap × Nat :=
  match labels with
  | some a => (h, a)
  | none => h.alloc []

/-- Lines 105-108 of Logger.py at the object level:
`merged_labels = self.global_labels.copy()` allocates a fresh dict holding
the current value of the global-labels object; `merged_labels.update(labels)`
and `merged_labels[self.severity_label] = level` write only to that fresh
object.  Returns the final heap and the address of the merged dict. -/
def buildMergedLabelsHeap (h : Heap) (globalAddr : Nat) (labels : Option Nat)
    (sevKey level : String) : Heap × Nat :=
  let al := h.alloc (h.deref globalAddr)
  let h1 := al.1
  let m := al.2
  let h2 :=
    match labels with
    | none => h1
    | some la => h1.write m (dictUpdate (h1.deref m) (h1.deref la))
  let h3 := h2.write m (dictSet (h2.deref m) sevKey level)
  (h3, m)

/-! ### Lookup lemmas for the dictionary operations -/

theorem dictLookup_append {α : Type} (d e : AList α) (k : String) :
    dictLookup (d ++ e) k = (dictLookup d k <|> dictLookup e k) := by
  induction d with
  | nil => simp [dictLookup]
  | cons p rest ih =>
    obtain ⟨pk, pv⟩ := p
    by_cases h : pk = k
    · simp [dictLookup, h]
    · simpa [dictLookup, h] using ih

theorem dictLookup_eq_none_of_not_any {α : Type} (d : AList α) (k : String)
    (h : d.any (fun p => p.1 = k) = false) : dictLookup d k = none := by
  induction d with
  | nil => rfl
  | cons p rest ih =>
    obtain ⟨pk, pv⟩ := p
    simp only [List.any_cons, Bool.or_eq_false_iff, decide_eq_false_iff_not] at h
    simp only [dictLookup, if_neg h.1]
    exact ih h.2

theorem overwriteEntry_eq_new {α : Type} (k : String) (v : α)
    (p : String × α) (h : p.1 = k) : overwriteEntry k v p = (k, v) :=
  if_pos h

theorem overwriteEntry_eq_old {α : Type} (k : String) (v : α)
    (p : String × α) (h : ¬ p.1 = k) : overwriteEntry k v p = p :=
  if_neg h

theorem dictLookup_map_overwrite_ne {α : Type} (d : AList α) (k k' : String)
    (v : α) (hne : k' ≠ k) :
    dictLookup (d.map (overwriteEntry k v)) k' = dictLookup d k' := by
  induction d with
  | nil => rfl
  | cons p rest ih =>
    obtain ⟨pk, pv⟩ := p
    rw [List.map_cons]
    by_cases hpk : pk = k
    · subst hpk
      rw [overwriteEntry_eq_new pk v (pk, pv) rfl]
      rw [dictLookup, dictLookup, if_neg (Ne.symm hne), if_neg (Ne.symm hne)]
      exact ih
    · rw [overwriteEntry_eq_old k v (pk, pv) hpk]
      by_cases hpk' : pk = k'
      · rw [dictLookup, dictLookup, if_pos hpk', if_pos hpk']
      · rw [dictLookup, dictLookup, if_neg hpk', if_neg hpk']
        exact ih

theorem dictLookup_map_overwrite_self {α : Type} (d : AList α) (k : String)
    (v : α) (hmem : d.any (fun p => p.1 = k) = true) :
    dictLookup (d.map (overwriteEntry k v)) k = some v := by
  induction d with
  | nil => simp at hmem
  | cons p rest ih =>
    obtain ⟨pk, pv⟩ := p
    rw [List.map_cons]
    by_cases hpk : pk = k
    · rw [overwriteEntry_eq_new k v (pk, pv) hpk]
      rw [dictLookup, if_pos rfl]
    · simp only [List.any_cons, Bool.or_eq_true, decide_eq_true_eq] at hmem
      rcases hmem with h | h
      · exact absurd h hpk
      · rw [overwriteEntry_eq_old k v (pk, pv) hpk]
        rw [dictLookup, if_neg hpk]
        exact ih h

/-- The fundamental property of `d[k] = v`: lookup of `k` afterwards gives
`v`, every other key is untouched.  Holds for arbitrary association lists. -/
theorem dictLookup_dictSet {α : Type} (d : AList α) (k k' : String) (v : α) :
    dictLookup (dictSet d k v) k'
      = if k' = k then some v else dictLookup d k' := by
  unfold dictSet
  by_cases hmem : d.any (fun p => p.1 = k)
  · rw [if_pos hmem]
    by_cases hk : k' = k
    · subst hk
      rw [if_pos rfl]
      exact dictLookup_map_overwrite_self d k' v hmem
    · rw [if_neg hk]
      exact dictLookup_map_overwrite_ne d k k' v hk
  · rw [if_neg hmem]
    rw [dictLookup_append]
    have hfalse : d.any (fun p => p.1 = k) = false := by
      cases h : d.any (fun p => p.1 = k) with
      | false => rfl
      | true => exact absurd h hmem
    by_cases hk : k' = k
    · subst hk
      rw [dictLookup_eq_none_of_not_any d k' hfalse, if_pos rfl]
      simp [dictLookup]
    · rw [if_neg hk]
      simp [dictLookup, Ne.symm hk]

theorem dictLookup_eq_none_of_not_mem_keys {α : Type} (d : AList α)
    (k : String) (h : k ∉ dictKeys d) : dictLookup d k = none := by
  induction d with
  | nil => rfl
  | cons p rest ih =>
    obtain ⟨pk, pv⟩ := p
    simp only [dictKeys, List.map_cons, List.mem_cons, not_or] at h
    rw [dictLookup, if_neg (fun hh => h.1 hh.symm)]
    exact ih h.2

/-- A concrete logger configuration used to instantiate the theorems,
matching the spec's concrete scenario (base URL `https://loki.example.com`,
default labels containing `app` and an overlapping `env` key). -/
def exLogger : LokiLogger :=
  { baseUrl := "https://loki.example.com"
    pushUrl := "/loki/api/v1/push"
    severity_label := "level"
    auth := none
    global_labels := [("app", "svc"), ("env", "prod")] }

/-- A concrete two-cell heap: cell 0 holds the default labels, cell 1 holds a
caller-supplied per-call label dict. -/
def exHeap : Heap := ⟨[[("app", "svc")], [("env", "staging")]]⟩

/-! ### Heap lemmas -/

theorem Heap.deref_write_self (h : Heap) (a : Nat) (v : AList String)
    (ha : a < h.cells.length) : (h.write a v).deref a = v := by
  unfold Heap.write Heap.deref
  simp [List.getElem?_set_self ha]

theorem Heap.deref_write_ne (h : Heap) (a b : Nat) (v : AList String)
    (hab : a ≠ b) : (h.write a v).deref b = h.deref b := by
  unfold Heap.write Heap.deref
  simp [List.getElem?_set_ne hab]

theorem Heap.deref_alloc_old (h : Heap) (v : AList String) (a : Nat)
    (ha : a < h.cells.length) : (h.alloc v).1.deref a = h.deref a := by
  unfold Heap.alloc Heap.deref
  simp [List.getElem?_append_left ha]

theorem Heap.deref_alloc_new (h : Heap) (v : AList String) :
    (h.alloc v).1.deref (h.alloc v).2 = v := by
  unfold Heap.alloc Heap.deref
  simp [List.getElem?_concat_length]

theorem Heap.write_length (h : Heap) (a : Nat) (v : AList String) :
    (h.write a v).cells.length = h.cells.length := by
  unfold Heap.write
  simp

theorem Heap.alloc_length (h : Heap) (v : AList String) :
    (h.alloc v).1.cells.length = h.cells.length + 1 := by
  unfold Heap.alloc
  simp

theorem Heap.deref_allocWrite_self (h : Heap) (v w : AList String) :
    ((h.alloc v).1.write (h.alloc v).2 w).deref (h.alloc v).2 = w := by
  apply Heap.deref_write_self
  rw [Heap.alloc_length]
  exact Nat.lt_succ_self _

theorem Heap.deref_allocWrite_old (h : Heap) (v w : AList String) (a : Nat)
    (ha : a < h.cells.length) :
    ((h.alloc v).1.write (h.alloc v).2 w).deref a = h.deref a := by
  rw [Heap.deref_write_ne _ _ _ _ (show (h.alloc v).2 ≠ a from ne_of_gt ha),
    Heap.deref_alloc_old h v a ha]

theorem Heap.deref_allocWriteWrite_self (h : Heap) (v w₁ w₂ : AList String) :
    (((h.alloc v).1.write (h.alloc v).2 w₁).write (h.alloc v).2 w₂).deref
      (h.alloc v).2 = w₂ := by
  apply Heap.deref_write_self
  rw [Heap.write_length, Heap.alloc_length]
  exact Nat.lt_succ_self _

theorem Heap.deref_allocWriteWrite_old (h : Heap) (v w₁ w₂ : AList String)
    (a : Nat) (ha : a < h.cells.length) :
    (((h.alloc v).1.write (h.alloc v).2 w₁).write (h.alloc v).2 w₂).deref a
      = h.deref a := by
  rw [Heap.deref_write_ne _ _ _ _ (show (h.alloc v).2 ≠ a from ne_of_gt ha),
    Heap.deref_allocWrite_old h v w₁ a ha]

/-- Lookup after `d.update(l)` when `l` is a real dict (no duplicate keys):
keys of `l` win, everything else falls back to `d`. -/
theorem dictLookup_dictUpdate {α : Type} (d l : AList α) (k : String)
    (hWF : DictWF l) :
    dictLookup (dictUpdate d l) k
      = (dictLookup l k <|> dictLookup d k) := by
  induction l generalizing d with
  | nil => rfl
  | cons p rest ih =>
    obtain ⟨pk, pv⟩ := p
    have hWF' : DictWF rest := (List.nodup_cons.mp hWF).2
    have hnotin : pk ∉ dictKeys rest := (List.nodup_cons.mp hWF).1
    have step : dictUpdate d ((pk, pv) :: rest)
        = dictUpdate (dictSet d pk pv) rest := rfl
    rw [step, ih (dictSet d pk pv) hWF']
    by_cases hk : pk = k
    · subst hk
      rw [dictLookup_eq_none_of_not_mem_keys rest pk hnotin]
      simp [dictLookup, dictLookup_dictSet]
    · rw [dictLookup, if_neg hk]
      cases hrest : dictLookup rest k with
      | some v => rfl
      | none => simp [dictLookup_dictSet, Ne.symm hk]

/-! ### Claims -/

/-- Shared helper: every request built by `_call_api` has exactly one stream,
whose labels map the configured severity key to the invoked level (line 108
is the last write into `merged_labels`). -/
theorem callApi_severity (lg : LokiLogger) (level : String) (message : JVal)
    (extras : Option (AList JVal)) (labels : Option (AList String))
    (ts : Nat) (net : NetOutcome) :
    (callApi lg level message extras labels ts net).1.body.streams.map
        (fun st => dictLookup st.stream lg.severity_label) = [some level] := by
  show [dictLookup (dictSet (mergedStreamLabels lg.global_labels labels)
      lg.severity_label level) lg.severity_label] = [some level]
  rw [dictLookup_dictSet, if_pos rfl]

/-- C1: for every push (via `customLevel` or any convenience wrapper) with
level string `v`, every default-label map and every caller-supplied labels
map, the stream labels sent in the request map the configured severity label
key to `v`, even when the caller-supplied labels or the default labels
contain an entry for that same key. -/
theorem push_severity_label_eq_level (lg : LokiLogger) (level : String)
    (message : JVal) (extras : Option (AList JVal))
    (labels : Option (AList String)) (ts : Nat) (net : NetOutcome) :
    ((customLevel lg level message extras labels ts net).1.body.streams.map
        (fun st => dictLookup st.stream lg.severity_label) = [some level])
    ∧ ((infoLevel lg message extras labels ts net).1.body.streams.map
        (fun st => dictLookup st.stream lg.severity_label) = [some "info"])
    ∧ ((warnLevel lg message extras labels ts net).1.body.streams.map
        (fun st => dictLookup st.stream lg.severity_label) = [some "warn"])
    ∧ ((errorLevel lg message extras labels ts net).1.body.streams.map
        (fun st => dictLookup st.stream lg.severity_label) = [some "error"])
    ∧ ((debugLevel lg message extras labels ts net).1.body.streams.map
        (fun st => dictLookup st.stream lg.severity_label) = [some "debug"]) :=
  ⟨callApi_severity lg level message extras labels ts net,
   callApi_severity lg "info" message extras labels ts net,
   callApi_severity lg "warn" message extras labels ts net,
   callApi_severity lg "error" message extras labels ts net,
   callApi_severity lg "debug" message extras labels ts net⟩

/-- C2: for every push with configured default labels and a caller-supplied
labels map `L` (a real dict, hence without duplicate keys), the stream labels
of the request equal `dictSet` of the merged map, and the merged map (before
the severity entry is applied) is the union of the default labels and `L`
with `L` winning on every key present in both. -/
theorem stream_labels_default_union_call (lg : LokiLogger) (L : AList String)
    (hL : DictWF L) (level : String) (message : JVal)
    (extras : Option (AList JVal)) (ts : Nat) (net : NetOutcome) (k : String) :
    ((callApi lg level message extras (some L) ts net).1.body.streams.map
        (fun st => st.stream)
      = [dictSet (mergedStreamLabels lg.global_labels (some L))
          lg.severity_label level])
    ∧ dictLookup (mergedStreamLabels lg.global_labels (some L)) k
        = (dictLookup L k <|> dictLookup lg.global_labels k) := by
  refine ⟨rfl, ?_⟩
  rw [show mergedStreamLabels lg.global_labels (some L)
      = dictUpdate lg.global_labels L from rfl]
  exact dictLookup_dictUpdate lg.global_labels L k hL

/-- Witness for C2 at a concrete input with an overlapping key (`env` is
bound both in the default labels of `exLogger` and in the call labels). -/
theorem stream_labels_default_union_call_witness :
    DictWF [("env", "staging")]
    ∧ (((callApi exLogger "error" (JVal.s "db down") none
          (some [("env", "staging")]) 0
          (NetOutcome.response 204 "")).1.body.streams.map
            (fun st => st.stream)
        = [dictSet (mergedStreamLabels exLogger.global_labels
            (some [("env", "staging")])) exLogger.severity_label "error"])
      ∧ dictLookup (mergedStreamLabels exLogger.global_labels
          (some [("env", "staging")])) "env"
          = (dictLookup [("env", "staging")] "env"
              <|> dictLookup exLogger.global_labels "env")) :=
  ⟨by decide,
   stream_labels_default_union_call exLogger [("env", "staging")] (by decide)
     "error" (JVal.s "db down") none 0 (NetOutcome.response 204 "") "env"⟩

/-- C3: for every push with message `m` and extras map `E` (a real dict),
the payload object placed in the request's value pair is `{"message": m}`
overwritten by the entries of `E`: on every key, `E`'s value wins when
present (in particular an `E` entry named `"message"` replaces `m`), and a
key absent from `E` yields `m` exactly at `"message"` and nothing elsewhere. -/
theorem payload_extras_overwrite (lg : LokiLogger) (level : String)
    (message : JVal) (E : List (String × JVal)) (hE : DictWF E)
    (labels : Option (AList String)) (ts : Nat) (net : NetOutcome)
    (k : String) :
    ((callApi lg level message (some E) labels ts net).1.body.streams.map
        (fun st => st.values)
      = [[(toString ts, JVal.obj (buildPayload message (some E)))]])
    ∧ dictLookup (buildPayload message (some E)) k
        = (dictLookup E k
            <|> if k = "message" then some message else none) := by
  refine ⟨rfl, ?_⟩
  rw [show buildPayload message (some E)
      = dictUpdate [("message", message)] E from rfl]
  rw [dictLookup_dictUpdate [("message", message)] E k hE]
  cases dictLookup E k with
  | some v => rfl
  | none =>
      show dictLookup [("message", message)] k
        = (if k = "message" then some message else none)
      by_cases hk : k = "message"
      · subst hk
        simp [dictLookup]
      · rw [if_neg hk, dictLookup, if_neg (fun hh => hk hh.symm)]
        rfl

/-- Witness for C3 at a concrete input whose extras contain the key
`"message"`, showing last-write-wins on that key. -/
theorem payload_extras_overwrite_witness :
    DictWF [("message", JVal.s "override"), ("db", JVal.s "pg")]
    ∧ (((callApi exLogger "error" (JVal.s "db down")
          (some [("message", JVal.s "override"), ("db", JVal.s "pg")]) none 0
          (NetOutcome.response 204 "")).1.body.streams.map
            (fun st => st.values)
        = [[(toString 0, JVal.obj (buildPayload (JVal.s "db down")
            (some [("message", JVal.s "override"), ("db", JVal.s "pg")])))]])
      ∧ dictLookup (buildPayload (JVal.s "db down")
          (some [("message", JVal.s "override"), ("db", JVal.s "pg")]))
          "message"
          = (dictLookup [("message", JVal.s "override"),
              ("db", JVal.s "pg")] "message"
             <|> if "message" = "message" then some (JVal.s "db down")
                 else none)) :=
  ⟨by decide,
   payload_extras_overwrite exLogger "error" (JVal.s "db down")
     [("message", JVal.s "override"), ("db", JVal.s "pg")] (by decide) none 0
     (NetOutcome.response 204 "") "message"⟩

/-- C4: construction fails with a `ConfigurationError` if and only if the
base URL is empty, or the base URL ends with `/`, or the push path does not
start with `/`; every argument combination violating none of these
constructs successfully. -/
theorem mkLogger_validation (baseUrl : String)
    (auth : Option (String × String)) (severity_label pushUrl : String)
    (labels : Option (AList String)) :
    ((∃ m, mkLogger baseUrl auth severity_label pushUrl labels
        = Except.error (LokiError.configurationError m))
      ↔ (baseUrl = "" ∨ pyEndsWith baseUrl "/" = true
          ∨ pyStartsWith pushUrl "/" = false))
    ∧ (¬(baseUrl = "" ∨ pyEndsWith baseUrl "/" = true
          ∨ pyStartsWith pushUrl "/" = false)
        → ∃ lg, mkLogger baseUrl auth severity_label pushUrl labels
            = Except.ok lg) := by
  unfold mkLogger
  by_cases h1 : baseUrl = ""
  · simp [h1]
  · by_cases h2 : pyEndsWith baseUrl "/" = true
    · simp [h1, h2]
    · by_cases h3 : pyStartsWith pushUrl "/" = true
      · simp [h1, h2, h3]
      · simp [h1, h2, h3]

/-- Witness for C4: a well-formed configuration is accepted. -/
theorem mkLogger_validation_witness :
    ¬("https://loki.example.com" = ""
        ∨ pyEndsWith "https://loki.example.com" "/" = true
        ∨ pyStartsWith "/loki/api/v1/push" "/" = false)
    ∧ ∃ lg, mkLogger "https://loki.example.com" none "level"
        "/loki/api/v1/push" none = Except.ok lg :=
  ⟨by decide,
   (mkLogger_validation "https://loki.example.com" none "level"
     "/loki/api/v1/push" none).2 (by decide)⟩

/-- C5: a 204 response returns without error; a non-204 response fails with
`LokiPushError` carrying that status code and the raw response text; a
transport failure fails with `LokiConnectionError` whose message carries the
target URL (base URL concatenated with push path) and the cause description. -/
theorem callApi_outcome_taxonomy (lg : LokiLogger) (level : String)
    (message : JVal) (extras : Option (AList JVal))
    (labels : Option (AList String)) (ts : Nat) :
    (∀ text, (callApi lg level message extras labels ts
        (NetOutcome.response 204 text)).2 = Except.ok ())
    ∧ (∀ status text, status ≠ 204 →
        (callApi lg level message extras labels ts
            (NetOutcome.response status text)).2
          = Except.error (LokiError.pushError "Failed to push log to Loki"
              status text))
    ∧ (∀ desc, (callApi lg level message extras labels ts
          (NetOutcome.transportError desc)).2
        = Except.error (LokiError.connectionError
            ("Failed to connect to Loki at " ++ (lg.baseUrl ++ lg.pushUrl)
              ++ ": " ++ desc))) := by
  refine ⟨fun text => rfl, fun status text hs => ?_, fun desc => rfl⟩
  show (if status ≠ 204 then
      Except.error (LokiError.pushError "Failed to push log to Loki"
        status text)
    else Except.ok ())
    = Except.error (LokiError.pushError "Failed to push log to Loki"
        status text)
  rw [if_pos hs]

/-- Witness for C5: a 500 response with body `boom` yields a push error with
that status code and body. -/
theorem callApi_outcome_taxonomy_witness :
    (500 ≠ 204)
    ∧ (callApi exLogger "error" (JVal.s "m") none none 0
        (NetOutcome.response 500 "boom")).2
      = Except.error (LokiError.pushError "Failed to push log to Loki"
          500 "boom") :=
  ⟨by decide,
   (callApi_outcome_taxonomy exLogger "error" (JVal.s "m") none none 0).2.1
     500 "boom" (by decide)⟩

/-- C6 counterexample: the constructor does NOT store a defensive copy.
Line 76 binds `self.global_labels` to the very dict object the caller
passed, so mutating the caller's dict after construction changes the
logger's stored default labels: starting from a one-cell heap holding
`{"app": "x"}`, constructing with that cell and then writing
`{"app": "y"}` through the caller's reference changes what the stored
reference denotes. -/
theorem constructor_no_copy_counterexample :
    ((initGlobalLabels ⟨[[("app", "x")]]⟩ (some 0)).1.write 0
        [("app", "y")]).deref (initGlobalLabels ⟨[[("app", "x")]]⟩ (some 0)).2
      ≠ (⟨[[("app", "x")]]⟩ : Heap).deref 0 := by
  decide

/-- C6 amended: the constructor stores the caller-supplied default-labels
dict by reference (no copy), or a fresh empty dict when none is given;
consequently a subsequent mutation of the map the caller passed in IS
reflected in the logger's stored default labels. -/
theorem constructor_stores_reference (h : Heap) (a : Nat) (v : AList String)
    (ha : a < h.cells.length) :
    initGlobalLabels h (some a) = (h, a)
    ∧ ((initGlobalLabels h (some a)).1.write a v).deref
        (initGlobalLabels h (some a)).2 = v
    ∧ (initGlobalLabels h none).1.deref (initGlobalLabels h none).2 = [] := by
  refine ⟨rfl, ?_, ?_⟩
  · show (h.write a v).deref a = v
    exact Heap.deref_write_self h a v ha
  · show (h.alloc []).1.deref (h.alloc []).2 = []
    exact Heap.deref_alloc_new h []

/-- Witness for C6 amended, on the concrete two-cell heap. -/
theorem constructor_stores_reference_witness :
    (0 < exHeap.cells.length)
    ∧ (initGlobalLabels exHeap (some 0) = (exHeap, 0)
      ∧ ((initGlobalLabels exHeap (some 0)).1.write 0
          [("app", "other")]).deref (initGlobalLabels exHeap (some 0)).2
        = [("app", "other")]
      ∧ (initGlobalLabels exHeap none).1.deref
          (initGlobalLabels exHeap none).2 = []) :=
  ⟨by decide, constructor_stores_reference exHeap 0 [("app", "other")]
    (by decide)⟩

/-- C7: the label merge of a push (lines 105-108) never writes into the
stored default-labels object or the caller-supplied labels object: the
merged dict lives at a fresh address distinct from both inputs, both input
cells hold their old values in the final heap, and the merged cell holds
exactly the value computed by the pure merge.  The network outcome plays no
role: no heap write happens after line 108, so this holds whether the push
succeeds or fails. -/
theorem push_preserves_input_label_cells (h : Heap) (g la : Nat)
    (sevKey level : String) (hg : g < h.cells.length)
    (hla : la < h.cells.length) :
    ((buildMergedLabelsHeap h g (some la) sevKey level).1.deref g = h.deref g)
    ∧ ((buildMergedLabelsHeap h g (some la) sevKey level).1.deref la
        = h.deref la)
    ∧ (buildMergedLabelsHeap h g (some la) sevKey level).2 ≠ g
    ∧ (buildMergedLabelsHeap h g (some la) sevKey level).2 ≠ la
    ∧ ((buildMergedLabelsHeap h g (some la) sevKey level).1.deref
          (buildMergedLabelsHeap h g (some la) sevKey level).2
        = dictSet (mergedStreamLabels (h.deref g) (some (h.deref la)))
            sevKey level)
    ∧ ((buildMergedLabelsHeap h g none sevKey level).1.deref g
        = h.deref g) := by
  refine ⟨?_, ?_, ?_, ?_, ?_, ?_⟩
  · simp only [buildMergedLabelsHeap]
    exact Heap.deref_allocWriteWrite_old h _ _ _ g hg
  · simp only [buildMergedLabelsHeap]
    exact Heap.deref_allocWriteWrite_old h _ _ _ la hla
  · exact ne_of_gt hg
  · exact ne_of_gt hla
  · simp only [buildMergedLabelsHeap]
    rw [Heap.deref_allocWriteWrite_self, Heap.deref_allocWrite_self,
      Heap.deref_alloc_new, Heap.deref_alloc_old h _ la hla]
    rfl
  · simp only [buildMergedLabelsHeap]
    exact Heap.deref_allocWrite_old h _ _ g hg

/-- Witness for C7 on the concrete two-cell heap (defaults at address 0,
call labels at address 1). -/
theorem push_preserves_input_label_cells_witness :
    (0 < exHeap.cells.length ∧ 1 < exHeap.cells.length)
    ∧ (((buildMergedLabelsHeap exHeap 0 (some 1) "level" "error").1.deref 0
        = exHeap.deref 0)
      ∧ ((buildMergedLabelsHeap exHeap 0 (some 1) "level" "error").1.deref 1
          = exHeap.deref 1)
      ∧ (buildMergedLabelsHeap exHeap 0 (some 1) "level" "error").2 ≠ 0
      ∧ (buildMergedLabelsHeap exHeap 0 (some 1) "level" "error").2 ≠ 1
      ∧ ((buildMergedLabelsHeap exHeap 0 (some 1) "level" "error").1.deref
            (buildMergedLabelsHeap exHeap 0 (some 1) "level" "error").2
          = dictSet (mergedStreamLabels (exHeap.deref 0)
              (some (exHeap.deref 1))) "level" "error")
      ∧ ((buildMergedLabelsHeap exHeap 0 none "level" "error").1.deref 0
          = exHeap.deref 0)) :=
  ⟨⟨by decide, by decide⟩,
   push_preserves_input_label_cells exHeap 0 1 "level" "error" (by decide)
     (by decide)⟩

/-- C8: each convenience wrapper is extensionally equal to `customLevel`
with the level argument fixed to its name. -/
theorem wrappers_eq_customLevel (lg : LokiLogger) (message : JVal)
    (extras : Option (AList JVal)) (labels : Option (AList String))
    (ts : Nat) (net : NetOutcome) :
    infoLevel lg message extras labels ts net
        = customLevel lg "info" message extras labels ts net
    ∧ warnLevel lg message extras labels ts net
        = customLevel lg "warn" message extras labels ts net
    ∧ errorLevel lg message extras labels ts net
        = customLevel lg "error" message extras labels ts net
    ∧ debugLevel lg message extras labels ts net
        = customLevel lg "debug" message extras labels ts net :=
  ⟨rfl, rfl, rfl, rfl⟩

/-- C9: omitting the extras argument produces a push attempt and result
identical to passing an empty extras map, and likewise for the labels
argument. -/
theorem omitted_args_equal_empty_maps (lg : LokiLogger) (level : String)
    (message : JVal) (extras : Option (AList JVal))
    (labels : Option (AList String)) (ts : Nat) (net : NetOutcome) :
    callApi lg level message none labels ts net
        = callApi lg level message (some []) labels ts net
    ∧ callApi lg level message extras none ts net
        = callApi lg level message extras (some []) ts net :=
  ⟨rfl, rfl⟩

/-- C10: `customLevel` performs no validation of the level argument: for
every string, including the empty string, the request's stream labels map
the severity key to that string, and the call never fails with a
configuration error (configuration is validated only at construction). -/
theorem customLevel_no_validation (lg : LokiLogger) (level : String)
    (message : JVal) (extras : Option (AList JVal))
    (labels : Option (AList String)) (ts : Nat) (net : NetOutcome) :
    ((customLevel lg level message extras labels ts net).1.body.streams.map
        (fun st => dictLookup st.stream lg.severity_label) = [some level])
    ∧ ∀ msg, (customLevel lg level message extras labels ts net).2
        ≠ Except.error (LokiError.configurationError msg) := by
  refine ⟨callApi_severity lg level message extras labels ts net,
    fun msg hcontra => ?_⟩
  cases net with
  | response status text =>
      by_cases hs : status = 204
      · subst hs
        simp [customLevel, callApi] at hcontra
      · simp [customLevel, callApi, hs] at hcontra
  | transportError desc =>
      simp [customLevel, callApi] at hcontra

/-- Witness for C10 at the empty level string. -/
theorem customLevel_no_validation_witness :
    ((customLevel exLogger "" (JVal.s "m") none none 0
        (NetOutcome.response 204 "")).1.body.streams.map
        (fun st => dictLookup st.stream exLogger.severity_label)
      = [some ""])
    ∧ (customLevel exLogger "" (JVal.s "m") none none 0
        (NetOutcome.response 204 "")).2
      ≠ Except.error (LokiError.configurationError "invalid level") :=
  ⟨(customLevel_no_validation exLogger "" (JVal.s "m") none none 0
      (NetOutcome.response 204 "")).1,
   (customLevel_no_validation exLogger "" (JVal.s "m") none none 0
      (NetOutcome.response 204 "")).2 "invalid level"⟩

end LokiSpec
